import Mathlib

set_option maxRecDepth 8000

/-!
Verification model of the Statify repository (processJsons.py and
streamlit_app.py): the record normalization and aggregation engine.
Raw play events are normalized into canonical records, sorted by parsed
timestamp, and aggregated into listening metrics. The definitions below are a
shallow embedding of the Python source; machine integers are modelled as Int,
fallible operations as Option, and the pandas DataFrame as a list of rows.
-/

/-- A raw Spotify play event: the fields of interest read by entry.get in both
normalizer loops. A JSON field that is absent or null is modelled as none. -/
structure RawEvent where
  ts : Option String
  ms_played : Option Int
  platform : Option String
  master_metadata_track_name : Option String
  master_metadata_album_artist_name : Option String
  master_metadata_album_album_name : Option String
  spotify_track_uri : Option String
  skipped : Option Bool
  shuffle : Option Bool
  offline : Option Bool
  incognito_mode : Option Bool
deriving DecidableEq

/-- The record dict built by the per-entry loop (processJsons.py lines 27-40,
streamlit_app.py lines 43-56). The timestamp field holds the raw ts string. -/
structure CanonicalRecord where
  timestamp : String
  platform : Option String
  ms_played : Option Int
  track_name : Option String
  artist : Option String
  album : Option String
  spotify_uri : Option String
  skipped : Option Bool
  shuffle : Option Bool
  offline : Option Bool
  incognito_mode : Option Bool
  source_file : String
deriving DecidableEq

/-- Python truthiness of an optional string: None and the empty string are
falsy (the guard "if not timestamp" in both normalizer loops). -/
def pyTruthyStr : Option String → Bool
  | none => false
  | some s => decide (s ≠ "")

/-- Python truthiness of an optional integer: None and 0 are falsy. -/
def pyTruthyInt : Option Int → Bool
  | none => false
  | some m => decide (m ≠ 0)

/-- Python comparison of an optional integer against 3600000; in the source it
is evaluated only after the truthiness guard, so None never reaches it, but we
give it the total reading in which None compares false. -/
def pyGtInt : Option Int → Int → Bool
  | none, _ => false
  | some m, k => decide (k < m)

/-- One iteration of the per-entry normalizer loop, identical in
process_spotify_history_combined_and_split (processJsons.py lines 17-41) and
process_spotify_zip (streamlit_app.py lines 33-57): skip the entry when ts is
missing or empty, skip it when ms_played is truthy and greater than 3600000,
otherwise build the record dict with the raw ts and the source name. -/
def normalizeEntry (e : RawEvent) (src : String) : Option CanonicalRecord :=
  match e.ts with
  | none => none
  | some t =>
    if t = "" then none
    else if pyTruthyInt e.ms_played && pyGtInt e.ms_played 3600000 then none
    else some
      { timestamp := t
        platform := e.platform
        ms_played := e.ms_played
        track_name := e.master_metadata_track_name
        artist := e.master_metadata_album_artist_name
        album := e.master_metadata_album_album_name
        spotify_uri := e.spotify_track_uri
        skipped := e.skipped
        shuffle := e.shuffle
        offline := e.offline
        incognito_mode := e.incognito_mode
        source_file := src }

/-- The full normalizer pass: the records list accumulated file by file,
entry by entry, in discovery order. -/
def normalizeAll (sources : List (String × List RawEvent)) : List CanonicalRecord :=
  ((sources.map (fun s => s.2.filterMap (fun e => normalizeEntry e s.1))).flatten)

/-- Value of a decimal digit character. -/
def digitVal (c : Char) : Option Nat :=
  if c.isDigit then some (c.toNat - 48) else none

/-- Two decimal digits and the rest of the input. -/
def parse2 : List Char → Option (Nat × List Char)
  | a :: b :: rest =>
    match digitVal a, digitVal b with
    | some x, some y => some (10 * x + y, rest)
    | _, _ => none
  | _ => none

/-- Four decimal digits and the rest of the input. -/
def parse4 : List Char → Option (Nat × List Char)
  | a :: b :: c :: d :: rest =>
    match digitVal a, digitVal b, digitVal c, digitVal d with
    | some w, some x, some y, some z => some (1000 * w + 100 * x + 10 * y + z, rest)
    | _, _, _, _ => none
  | _ => none

/-- Consume one expected character. -/
def expectCh (c : Char) : List Char → Option (List Char)
  | d :: rest => if d = c then some rest else none
  | [] => none

/-- Gregorian leap year, as in Python's calendar rules. -/
def isLeapYear (y : Nat) : Bool := (y % 4 = 0 && y % 100 ≠ 0) || y % 400 = 0

/-- Length of a month. -/
def daysInMonth (y m : Nat) : Nat :=
  if m = 2 then (if isLeapYear y then 29 else 28)
  else if m = 4 ∨ m = 6 ∨ m = 9 ∨ m = 11 then 30
  else 31

/-- Days in all years before year y in the proleptic Gregorian calendar
(year 1 based), as in Python's datetime.date.toordinal. -/
def daysBeforeYear (y : Nat) : Nat :=
  365 * (y - 1) + (y - 1) / 4 - (y - 1) / 100 + (y - 1) / 400

/-- Days in the months of year y that precede month m. -/
def daysBeforeMonth (y m : Nat) : Nat :=
  ((List.range (m - 1)).map (fun i => daysInMonth y (i + 1))).sum

/-- Python date.toordinal: day number of a calendar date on the linear
day line. -/
def toOrdinalDays (y m d : Nat) : Nat := daysBeforeYear y + daysBeforeMonth y m + d

/-- A parsed datetime value: calendar fields plus the UTC offset in minutes.
Python's datetime with tzinfo; a naive value is modelled with offset 0. -/
structure PyDateTime where
  year : Nat
  month : Nat
  day : Nat
  hour : Nat
  minute : Nat
  second : Nat
  offMin : Int
deriving DecidableEq

/-- The instant a datetime denotes, in seconds on the UTC timeline. Python
compares aware datetimes by exactly this quantity. -/
def dtKey (t : PyDateTime) : Int :=
  (toOrdinalDays t.year t.month t.day : Int) * 86400
    + ((t.hour * 3600 + t.minute * 60 + t.second : Nat) : Int) - t.offMin * 60

/-- A trailing UTC offset of the form +HH:MM or -HH:MM, or nothing (a naive
datetime, modelled as offset 0). -/
def parseOffset : List Char → Option Int
  | [] => some 0
  | '+' :: rest =>
    match parse2 rest with
    | none => none
    | some (hh, r1) =>
      match expectCh ':' r1 with
      | none => none
      | some r2 =>
        match parse2 r2 with
        | none => none
        | some (mm, r3) =>
          if r3 = [] ∧ hh < 24 ∧ mm < 60 then some ((hh * 60 + mm : Nat) : Int) else none
  | '-' :: rest =>
    match parse2 rest with
    | none => none
    | some (hh, r1) =>
      match expectCh ':' r1 with
      | none => none
      | some r2 =>
        match parse2 r2 with
        | none => none
        | some (mm, r3) =>
          if r3 = [] ∧ hh < 24 ∧ mm < 60 then some (-((hh * 60 + mm : Nat) : Int)) else none
  | _ => none

/-- Range validation performed by the datetime constructor: a real calendar
date and a time of day, else ValueError (modelled none). -/
def validDT (y mo d h mi sec : Nat) (off : Int) : Option PyDateTime :=
  if 1 ≤ y ∧ 1 ≤ mo ∧ mo ≤ 12 ∧ 1 ≤ d ∧ d ≤ daysInMonth y mo
      ∧ h ≤ 23 ∧ mi ≤ 59 ∧ sec ≤ 59
  then some
    { year := y
      month := mo
      day := d
      hour := h
      minute := mi
      second := sec
      offMin := off }
  else none

/-- Model of Python's datetime.fromisoformat restricted to the shapes this
repository feeds it: a date YYYY-MM-DD, optionally followed by a separator
character, a time HH:MM:SS, and an optional +HH:MM or -HH:MM offset. Returns
none exactly when the input does not have this shape or a field is out of
range, where fromisoformat raises ValueError. -/
def parseTs (s : String) : Option PyDateTime := do
  let (y, r1) ← parse4 s.data
  let r2 ← expectCh '-' r1
  let (mo, r3) ← parse2 r2
  let r4 ← expectCh '-' r3
  let (d, r5) ← parse2 r4
  let (h, mi, sec, off) ←
    (match r5 with
    | [] => some (0, 0, 0, (0 : Int))
    | _ :: r6 => do
      let (h, r7) ← parse2 r6
      let r8 ← expectCh ':' r7
      let (mi, r9) ← parse2 r8
      let r10 ← expectCh ':' r9
      let (sec, r11) ← parse2 r10
      let off ← parseOffset r11
      some (h, mi, sec, off))
  validDT y mo d h mi sec off

/-- Python str.replace with the one-character pattern Z: every occurrence is
replaced by +00:00 (processJsons.py lines 44 and 59, streamlit_app.py
line 64). -/
def pyReplaceZ (s : String) : String :=
  String.mk ((s.data.map (fun c => if c = 'Z' then "+00:00".data else [c])).flatten)

/-- The sort key computed for a record by processJsons.py line 44. -/
def recKey (r : CanonicalRecord) : Option Int := (parseTs (pyReplaceZ r.timestamp)).map dtKey

/-- The sort key with the (unreachable on the sorted path) default 0. -/
def keyD (r : CanonicalRecord) : Int := (recKey r).getD 0

/-- Insert into a list ordered by a Bool comparison, before the first element
the new one compares less-or-equal to. -/
def ordInsert (le : α → α → Bool) (a : α) : List α → List α
  | [] => [a]
  | b :: l => if le a b then a :: b :: l else b :: ordInsert le a l

/-- Insertion sort by a Bool comparison. With a total transitive comparison
this is the unique stable sort, hence a model of Python's stable list.sort. -/
def isort (le : α → α → Bool) : List α → List α
  | [] => []
  | a :: l => ordInsert le a (isort le l)

/-- Comparison of two records by parsed timestamp. -/
def leRec (a b : CanonicalRecord) : Bool := decide (keyD a ≤ keyD b)

/-- records.sort(key=...) at processJsons.py lines 43-44: list.sort first
computes the key of every record, raising (modelled as none) when some
timestamp does not parse, and otherwise stable-sorts by the keys. -/
def sortRecords (rs : List CanonicalRecord) : Option (List CanonicalRecord) :=
  if rs.all (fun r => (recKey r).isSome) then some (isort leRec rs) else none

/-- The load pipeline over already-selected sources: normalize every entry of
every source in order, then sort the records by parsed timestamp. -/
def loadRecords (sources : List (String × List RawEvent)) : Option (List CanonicalRecord) :=
  sortRecords (normalizeAll sources)

/-- All suffixes of a character list, the list itself included. -/
def suffixes : List Char → List (List Char)
  | [] => [[]]
  | c :: s => (c :: s) :: suffixes s

/-- fnmatch-style matching for the shell glob patterns Path.glob uses: the
star wildcard matches any, possibly empty, run of characters; every other
pattern character matches itself. -/
def gmatch : List Char → List Char → Bool
  | [], s => s.isEmpty
  | c :: p, s =>
    if c = '*' then (suffixes s).any (fun t => gmatch p t)
    else
      match s with
      | [] => false
      | d :: s' => decide (c = d) && gmatch p s'

/-- The folder loader's selection rule: folder.glob at processJsons.py
line 11 keeps exactly the file names matching its glob pattern. -/
def globMatch (n : String) : Bool :=
  gmatch "Streaming_History_Audio_*.json".data n.data

/-- Character-list test that p is a leading run of s (Python str.startswith). -/
def startsWithL : List Char → List Char → Bool
  | [], _ => true
  | _ :: _, [] => false
  | a :: p, b :: s => decide (a = b) && startsWithL p s

/-- Character-list test for the Python substring operator: the needle is a
leading run of some suffix of the haystack. -/
def containsSub (needle s : List Char) : Bool :=
  (suffixes s).any (fun t => startsWithL needle t)

/-- Character-list test that suf is a trailing run of s (Python str.endswith). -/
def endsWithL (suf s : List Char) : Bool :=
  (suffixes s).any (fun t => decide (t = suf))

/-- The zip loader's selection rule at streamlit_app.py line 24: the marker
is a substring of the name and the name ends with .json. -/
def zipMatch (n : String) : Bool :=
  containsSub "Streaming_History_Audio_".data n.data && endsWithL ".json".data n.data

/-- A row of the DataFrame built by process_spotify_zip (streamlit_app.py
lines 63-67): the record fields with the timestamp column already parsed
(line 64), plus the two Bool columns later assigned in place by
calculate_metrics line 83 and show_dashboard line 256; none models a column
not (yet) present. The derived columns hours_played, date and month are pure
functions of these fields and are modelled as functions. -/
structure DfRow where
  ts : PyDateTime
  platform : Option String
  ms_played : Option Int
  track_name : Option String
  artist : Option String
  album : Option String
  spotify_uri : Option String
  skipped : Option Bool
  shuffle : Option Bool
  offline : Option Bool
  incognito_mode : Option Bool
  source_file : String
  is_skipped : Option Bool
  likely_skipped : Option Bool
deriving DecidableEq

/-- The hours_played column (line 65): ms_played / 3600000, NaN (modelled
none) when ms_played is absent. -/
def hoursOf (r : DfRow) : Option ℚ := r.ms_played.map (fun m => (m : ℚ) / 3600000)

/-- pandas Series.sum with default skipna: absent entries contribute 0. -/
def sumOpt (l : List (Option ℚ)) : ℚ := (l.map (fun x => x.getD 0)).sum

/-- df[hours_played].sum() (line 73). -/
def total_hours (df : List DfRow) : ℚ := sumOpt (df.map hoursOf)

/-- pandas Series.nunique: the number of distinct non-absent values. -/
def nuniqueBy (f : DfRow → Option String) (df : List DfRow) : Nat :=
  (df.filterMap f).dedup.length

/-- Lexicographic code-point comparison of character lists, the order Python
and pandas use on strings. -/
def leCharList : List Char → List Char → Bool
  | [], _ => true
  | _ :: _, [] => false
  | a :: s, b :: t =>
    if a.toNat < b.toNat then true
    else if b.toNat < a.toNat then false
    else leCharList s t

/-- Non-strict string comparison, as pandas sorts group keys. -/
def leStr (a b : String) : Bool := leCharList a.data b.data

/-- Lexicographic comparison of string pairs, as pandas orders a two-level
group index. -/
def leStrPair (a b : String × String) : Bool :=
  if a.1 = b.1 then leStr a.2 b.2 else leStr a.1 b.1

/-- Chronological comparison of (year, month) period keys. -/
def leMonth (a b : Nat × Nat) : Bool :=
  if a.1 = b.1 then decide (a.2 ≤ b.2) else decide (a.1 ≤ b.1)

/-- The group keys of pandas groupby with default sort=True: the distinct
present keys in ascending order. -/
def sortedKeys [DecidableEq κ] (le : κ → κ → Bool) (ks : List κ) : List κ :=
  isort le ks.dedup

/-- groupby(key)[value].sum(): one entry per distinct present key (groupby
drops rows whose key is absent), keys ascending, and the skipna sum of the
group's values. -/
def groupbySum [DecidableEq κ] (le : κ → κ → Bool) (key : DfRow → Option κ)
    (val : DfRow → Option ℚ) (df : List DfRow) : List (κ × ℚ) :=
  (sortedKeys le (df.filterMap key)).map
    (fun k => (k, sumOpt ((df.filter (fun r => decide (key r = some k))).map val)))

/-- Series.nlargest(10): stable descending sort by the value, first ten
entries (ties keep index order, which is pandas keep=first). -/
def nlargestQ (l : List (κ × ℚ)) : List (κ × ℚ) :=
  (isort (fun x y => decide (y.2 ≤ x.2)) l).take 10

/-- The (track_name, artist) group key; absent when either field is absent,
which is the row groupby drops. -/
def trackKey (r : DfRow) : Option (String × String) :=
  match r.track_name, r.artist with
  | some t, some a => some (t, a)
  | _, _ => none

/-- top_artists (line 78). -/
def top_artists (df : List DfRow) : List (String × ℚ) :=
  nlargestQ (groupbySum leStr (fun r => r.artist) hoursOf df)

/-- top_tracks (line 79). -/
def top_tracks (df : List DfRow) : List ((String × String) × ℚ) :=
  nlargestQ (groupbySum leStrPair trackKey hoursOf df)

/-- The month column: the (year, month) period of the parsed timestamp. -/
def monthKey (r : DfRow) : Option (Nat × Nat) := some (r.ts.year, r.ts.month)

/-- monthly_listening (line 80): month-keyed group sums in chronological
key order. -/
def monthly_listening (df : List DfRow) : List ((Nat × Nat) × ℚ) :=
  groupbySum leMonth monthKey hoursOf df

/-- The Bool pandas computes for ms_played < 15000: an absent value (NaN)
compares false. -/
def isSkipB (r : DfRow) : Bool :=
  match r.ms_played with
  | some m => decide (m < 15000)
  | none => false

/-- What the assignment at streamlit_app.py line 83 does to one row: the
is_skipped column receives the comparison Bool, everything else is kept. -/
def markFun (r : DfRow) : DfRow := { r with is_skipped := some (isSkipB r) }

/-- The in-place column assignment df[is_skipped] = df[ms_played] < 15000 at
streamlit_app.py line 83. -/
def markSkipped (df : List DfRow) : List DfRow := df.map markFun

/-- df[df[is_skipped]] at line 84: the rows whose new column is True. -/
def skRows (df : List DfRow) : List DfRow :=
  (markSkipped df).filter (fun r => decide (r.is_skipped = some true))

/-- Sum of the present ms_played values of a row list. -/
def sumMs (l : List DfRow) : ℚ :=
  (l.map (fun r => match r.ms_played with | some m => (m : ℚ) | none => 0)).sum

/-- Count of the present ms_played values of a row list. -/
def cntMs (l : List DfRow) : Nat := l.countP (fun r => r.ms_played.isSome)

/-- pandas Series.mean with default skipna: sum of the present values over
their count. -/
def meanMs (l : List DfRow) : ℚ := sumMs l / (cntMs l : ℚ)

/-- skipped_tracks (lines 84-87): the skipped rows grouped by
(track_name, artist), with the group size (count of is_skipped, all True
there) and the mean ms_played of the group. -/
def skipped_tracks (df : List DfRow) : List ((String × String) × Nat × ℚ) :=
  (sortedKeys leStrPair ((skRows df).filterMap trackKey)).map
    (fun k =>
      (k, (((skRows df).filter (fun r => decide (trackKey r = some k))).length,
           meanMs ((skRows df).filter (fun r => decide (trackKey r = some k))))))

/-- frequently_played and most_skipped (lines 90-91): keep the groups with
skip_count at least 3, then nlargest(10, skip_count). -/
def most_skipped (df : List DfRow) : List ((String × String) × Nat × ℚ) :=
  (isort (fun x y => decide (y.2.1 ≤ x.2.1))
    ((skipped_tracks df).filter (fun e => decide (3 ≤ e.2.1)))).take 10

/-- The bundle calculate_metrics returns (lines 93-102). -/
structure Metrics where
  total_hours : ℚ
  total_tracks : Nat
  unique_artists : Nat
  unique_tracks : Nat
  top_artists : List (String × ℚ)
  top_tracks : List ((String × String) × ℚ)
  monthly_listening : List ((Nat × Nat) × ℚ)
  most_skipped : List ((String × String) × Nat × ℚ)
deriving DecidableEq

/-- calculate_metrics (streamlit_app.py lines 71-102). The function reads df
and also assigns the is_skipped column on it in place; the returned pair is
(the record set as the caller sees it afterwards, the metrics bundle). -/
def calculate_metrics (df : List DfRow) : List DfRow × Metrics :=
  (markSkipped df,
    { total_hours := total_hours df
      total_tracks := df.length
      unique_artists := nuniqueBy (fun r => r.artist) df
      unique_tracks := nuniqueBy (fun r => r.track_name) df
      top_artists := top_artists df
      top_tracks := top_tracks df
      monthly_listening := monthly_listening df
      most_skipped := most_skipped df })

/-- The metric block of show_track_forensics (streamlit_app.py lines
404-410): skip_count, skip_rate and the reassigned total_plays, in that
order. The chronological sort at line 402 permutes the rows first and does
not change any of the three counts. -/
def track_forensics (l : List DfRow) : Nat × ℚ × Nat :=
  let sc := l.countP isSkipB
  let rate : ℚ := if 0 < l.length then ((sc : ℚ) / (l.length : ℚ)) * 100 else 0
  (sc, rate, l.length - sc)

/-! ### Concrete inputs used by the witnesses and counterexamples -/

/-- A raw event with every field absent. -/
def baseEvent : RawEvent :=
  { ts := none, ms_played := none, platform := none,
    master_metadata_track_name := none, master_metadata_album_artist_name := none,
    master_metadata_album_album_name := none, spotify_track_uri := none,
    skipped := none, shuffle := none, offline := none, incognito_mode := none }

/-- A fully populated valid raw event. -/
def e1 : RawEvent :=
  { baseEvent with
    ts := some "2023-05-01T10:00:00Z", ms_played := some 1234,
    platform := some "ios", master_metadata_track_name := some "Song",
    master_metadata_album_artist_name := some "Artist",
    master_metadata_album_album_name := some "Album",
    spotify_track_uri := some "spotify:track:x",
    skipped := some false, shuffle := some true, offline := some false,
    incognito_mode := some false }

/-- A raw event whose play length exceeds one hour. -/
def eLong : RawEvent :=
  { baseEvent with
    ts := some "2023-05-01T10:00:00Z", ms_played := some 4000000 }

/-- A raw event whose ts is present and non-empty but not ISO-8601. -/
def badTsEvent : RawEvent :=
  { baseEvent with
    ts := some "garbage", ms_played := some 1000 }

/-- A raw event with a Zulu-suffixed timestamp. -/
def zEvent : RawEvent := { baseEvent with ts := some "2023-01-01T00:00:00Z" }

/-- The record the normalizer builds from zEvent. -/
def rc3 : CanonicalRecord :=
  ⟨"2023-01-01T00:00:00Z", none, none, none, none, none, none, none, none, none,
    none, "f.json"⟩

/-- The record the normalizer builds from a plain dated event. -/
def rc2 : CanonicalRecord :=
  ⟨"2023-03-04T05:06:07Z", none, none, none, none, none, none, none, none, none,
    none, "f.json"⟩

/-- A one-event source list whose load succeeds. -/
def srcs2 : List (String × List RawEvent) :=
  [("f.json", [{ baseEvent with ts := some "2023-03-04T05:06:07Z" }])]

/-- Two sources with three events: one tie pair across sources and one
earlier event, exercising order and stability of the sort. -/
def srcs4 : List (String × List RawEvent) :=
  [("f1.json",
    [({ baseEvent with ts := some "2023-01-02T00:00:00Z", platform := some "p1" }),
     ({ baseEvent with ts := some "2023-01-01T00:00:00Z" })]),
   ("f2.json",
    [({ baseEvent with ts := some "2023-01-02T00:00:00Z", platform := some "p3" })])]

/-- The tie record discovered first in srcs4. -/
def rc4a : CanonicalRecord :=
  ⟨"2023-01-02T00:00:00Z", some "p1", none, none, none, none, none, none, none,
    none, none, "f1.json"⟩

/-- The earliest record of srcs4. -/
def rc4b : CanonicalRecord :=
  ⟨"2023-01-01T00:00:00Z", none, none, none, none, none, none, none, none, none,
    none, "f1.json"⟩

/-- The tie record discovered second in srcs4. -/
def rc4c : CanonicalRecord :=
  ⟨"2023-01-02T00:00:00Z", some "p3", none, none, none, none, none, none, none,
    none, none, "f2.json"⟩

/-- What loading srcs4 yields: sorted, with the tie pair in discovery order. -/
def l4 : List CanonicalRecord := [rc4b, rc4a, rc4c]

/-- A midday instant used as the parsed timestamp of concrete rows. -/
def dt0 : PyDateTime :=
  { year := 2023, month := 5, day := 1, hour := 10, minute := 0, second := 0, offMin := 0 }

/-- A row with the given artist, track and play length and no other data. -/
def cRow (a t : String) (ms : Option Int) : DfRow :=
  { ts := dt0, platform := none, ms_played := ms, track_name := some t,
    artist := some a, album := none, spotify_uri := none, skipped := none,
    shuffle := none, offline := none, incognito_mode := none,
    source_file := "f.json", is_skipped := none, likely_skipped := none }

/-- Ten one-play artists, nine of them with zero listening time. -/
def dfz : List DfRow :=
  [cRow "a" "ta" (some 0), cRow "b" "tb" (some 0), cRow "c" "tc" (some 0),
   cRow "d" "td" (some 0), cRow "e" "te" (some 0), cRow "f" "tf" (some 0),
   cRow "g" "tg" (some 0), cRow "h" "th" (some 0), cRow "i" "ti" (some 0),
   cRow "j" "tj" (some 3600)]

/-- Ten one-play artists, each with positive listening time. -/
def dfw : List DfRow :=
  [cRow "a" "ta" (some 3600), cRow "b" "tb" (some 3600), cRow "c" "tc" (some 3600),
   cRow "d" "td" (some 3600), cRow "e" "te" (some 3600), cRow "f" "tf" (some 3600),
   cRow "g" "tg" (some 3600), cRow "h" "th" (some 3600), cRow "i" "ti" (some 3600),
   cRow "j" "tj" (some 3600)]

/-- One track skipped three times. -/
def df7 : List DfRow :=
  [cRow "a" "t" (some 1000), cRow "a" "t" (some 1000), cRow "a" "t" (some 1000)]

/-- One track played four times, three of them under fifteen seconds. -/
def l48 : List DfRow :=
  [cRow "a" "t" (some 5000), cRow "a" "t" (some 6000), cRow "a" "t" (some 7000),
   cRow "a" "t" (some 200000)]

/-- A row on which no helper column has been materialized yet. -/
def r9 : DfRow := cRow "a" "t" none

/-! ### General lemmas about the stable insertion sort -/

theorem perm_ordInsert (le : α → α → Bool) (a : α) (l : List α) :
    List.Perm (ordInsert le a l) (a :: l) := by
  induction l with
  | nil => exact List.Perm.refl _
  | cons b l ih =>
    by_cases h : le a b = true
    · rw [ordInsert, if_pos h]
    · rw [ordInsert, if_neg h]
      exact (ih.cons b).trans (List.Perm.swap a b l)

theorem perm_isort (le : α → α → Bool) (l : List α) :
    List.Perm (isort le l) l := by
  induction l with
  | nil => exact List.Perm.refl _
  | cons a l ih => exact (perm_ordInsert le a (isort le l)).trans (ih.cons a)

theorem pairwise_ordInsert (le : α → α → Bool)
    (htot : ∀ a b, le a b = true ∨ le b a = true)
    (htrans : ∀ a b c, le a b = true → le b c = true → le a c = true)
    (a : α) (l : List α) (h : l.Pairwise (fun x y => le x y = true)) :
    (ordInsert le a l).Pairwise (fun x y => le x y = true) := by
  induction l with
  | nil => simp [ordInsert]
  | cons b l ih =>
    obtain ⟨hb, hl⟩ := List.pairwise_cons.mp h
    by_cases hab : le a b = true
    · rw [ordInsert, if_pos hab]
      exact List.Pairwise.cons
        (by
          intro x hx
          rcases List.mem_cons.mp hx with rfl | hx
          · exact hab
          · exact htrans a b x hab (hb x hx))
        (List.Pairwise.cons hb hl)
    · rw [ordInsert, if_neg hab]
      refine List.Pairwise.cons ?_ (ih hl)
      intro x hx
      rcases List.mem_cons.mp ((perm_ordInsert le a l).mem_iff.mp hx) with hxa | hx'
      · subst hxa
        exact (htot x b).resolve_left hab
      · exact hb x hx'

theorem pairwise_isort (le : α → α → Bool)
    (htot : ∀ a b, le a b = true ∨ le b a = true)
    (htrans : ∀ a b c, le a b = true → le b c = true → le a c = true)
    (l : List α) : (isort le l).Pairwise (fun x y => le x y = true) := by
  induction l with
  | nil => exact List.Pairwise.nil
  | cons a l ih => exact pairwise_ordInsert le htot htrans a (isort le l) ih

theorem filter_ordInsert_pos (le : α → α → Bool) (p : α → Bool) (a : α)
    (l : List α) (hpa : p a = true)
    (hcompat : ∀ b, le a b = false → p b = false) :
    (ordInsert le a l).filter p = a :: l.filter p := by
  induction l with
  | nil => simp [ordInsert, hpa]
  | cons b l ih =>
    by_cases hab : le a b = true
    · simp [ordInsert, hab, hpa]
    · have hpb : p b = false := hcompat b (by simp [hab])
      rw [ordInsert, if_neg hab]
      simp [List.filter_cons, hpb, ih]

theorem filter_ordInsert_neg (le : α → α → Bool) (p : α → Bool) (a : α)
    (l : List α) (hpa : p a = false) :
    (ordInsert le a l).filter p = l.filter p := by
  induction l with
  | nil => simp [ordInsert, hpa]
  | cons b l ih =>
    by_cases hab : le a b = true
    · simp [ordInsert, hab, List.filter_cons, hpa]
    · rw [ordInsert, if_neg hab]
      simp [List.filter_cons, ih]

theorem filter_isort (le : α → α → Bool) (p : α → Bool)
    (hcompat : ∀ a b, p a = true → le a b = false → p b = false)
    (l : List α) : (isort le l).filter p = l.filter p := by
  induction l with
  | nil => rfl
  | cons a l ih =>
    by_cases hpa : p a = true
    · rw [isort, filter_ordInsert_pos le p a _ hpa (fun b hb => hcompat a b hpa hb), ih]
      simp [List.filter_cons, hpa]
    · rw [isort, filter_ordInsert_neg le p a _ (by simp at hpa; simp [hpa]), ih]
      simp [List.filter_cons, hpa]

theorem pos_of_take_countP (v : β → ℚ) (l : List β) (n : Nat)
    (hp : l.Pairwise (fun x y => v y ≤ v x))
    (hc : n ≤ l.countP (fun x => decide (0 < v x))) :
    ∀ x ∈ l.take n, 0 < v x := by
  induction l generalizing n with
  | nil => simp
  | cons a l ih =>
    cases n with
    | zero => simp
    | succ n =>
      obtain ⟨hfa, hp'⟩ := List.pairwise_cons.mp hp
      by_cases hva : 0 < v a
      · intro x hx
        rcases List.mem_cons.mp (by simpa [List.take_succ_cons] using hx) with rfl | hx'
        · exact hva
        · refine ih n hp' ?_ x hx'
          have : (a :: l).countP (fun x => decide (0 < v x)) =
              l.countP (fun x => decide (0 < v x)) + 1 := by
            simp [List.countP_cons, hva]
          omega
      · exfalso
        have hall : l.countP (fun x => decide (0 < v x)) = 0 := by
          rw [List.countP_eq_zero]
          intro x hx
          have := hfa x hx
          simp only [decide_eq_true_eq]
          push_neg at hva
          intro hpos
          exact absurd (lt_of_lt_of_le hpos this) (not_lt.mpr hva)
        have : (a :: l).countP (fun x => decide (0 < v x)) = 0 := by
          simp [List.countP_cons, hva, hall]
        omega

/-! ### Claim theorems -/

/-- C1: normalization maps a raw event paired with a source name to exactly
one record, with every field of interest carried through unchanged and
source_file set to the source name, when ts is present and non-empty and
ms_played is absent or at most 3600000; otherwise it produces zero records. -/
theorem C1_normalize_iff (e : RawEvent) (src : String) :
    (∀ t, e.ts = some t → t ≠ "" →
      (∀ m, e.ms_played = some m → m ≤ 3600000) →
      normalizeEntry e src = some
        { timestamp := t
          platform := e.platform
          ms_played := e.ms_played
          track_name := e.master_metadata_track_name
          artist := e.master_metadata_album_artist_name
          album := e.master_metadata_album_album_name
          spotify_uri := e.spotify_track_uri
          skipped := e.skipped
          shuffle := e.shuffle
          offline := e.offline
          incognito_mode := e.incognito_mode
          source_file := src })
    ∧ ((e.ts = none ∨ e.ts = some "" ∨ ∃ m, e.ms_played = some m ∧ 3600000 < m) →
      normalizeEntry e src = none) := by
  constructor
  · intro t ht hne hms
    have hguard : (pyTruthyInt e.ms_played && pyGtInt e.ms_played 3600000) = false := by
      cases hm : e.ms_played with
      | none => simp [pyTruthyInt]
      | some m =>
        have := hms m hm
        simp [pyGtInt]
        omega
    simp [normalizeEntry, ht, hne, hguard]
  · intro h
    rcases h with h | h | ⟨m, hm, hbig⟩
    · simp [normalizeEntry, h]
    · simp [normalizeEntry, h]
    · have hguard : (pyTruthyInt e.ms_played && pyGtInt e.ms_played 3600000) = true := by
        rw [hm]
        simp [pyTruthyInt, pyGtInt]
        omega
      cases ht : e.ts with
      | none => simp [normalizeEntry, ht]
      | some t =>
        by_cases hte : t = ""
        · simp [normalizeEntry, ht, hte]
        · simp [normalizeEntry, ht, hte, hguard]

/-- Witness for C1 at concrete inputs: a populated valid event yields its
record and an over-one-hour event yields nothing. -/
theorem C1_witness :
    normalizeEntry e1 "Streaming_History_Audio_2023_1.json" = some
      { timestamp := "2023-05-01T10:00:00Z"
        platform := some "ios"
        ms_played := some 1234
        track_name := some "Song"
        artist := some "Artist"
        album := some "Album"
        spotify_uri := some "spotify:track:x"
        skipped := some false
        shuffle := some true
        offline := some false
        incognito_mode := some false
        source_file := "Streaming_History_Audio_2023_1.json" }
    ∧ normalizeEntry eLong "Streaming_History_Audio_2023_1.json" = none :=
  ⟨(C1_normalize_iff e1 "Streaming_History_Audio_2023_1.json").1
      "2023-05-01T10:00:00Z" rfl (by decide)
      (by intro m hm; injection hm with h; omega),
   (C1_normalize_iff eLong "Streaming_History_Audio_2023_1.json").2
      (Or.inr (Or.inr ⟨4000000, rfl, by omega⟩))⟩

/-- C2 counterexample: an event whose ts is present, non-empty and
unparseable is not dropped by the normalizer — a record is constructed for
it — and the subsequent sort of the load fails instead of succeeding without
the record. -/
theorem C2_counterexample :
    (normalizeEntry badTsEvent "f.json").isSome = true
    ∧ loadRecords [("f.json", [badTsEvent])] = none := by decide

/-- C2 as amended: on the successful path the invariant does hold — every
record of an ordered record set produced by a completed load has a timestamp
that parses (after the Z rewrite); but a non-empty unparseable ts is not
dropped before record construction: its record is built and the load's sort
step fails as a whole. -/
theorem C2_loaded_timestamps_parseable (sources : List (String × List RawEvent))
    (l : List CanonicalRecord) (h : loadRecords sources = some l) :
    ∀ r ∈ l, (parseTs (pyReplaceZ r.timestamp)).isSome = true := by
  intro r hr
  rw [loadRecords, sortRecords] at h
  split at h
  case isTrue hall =>
    injection h with h2
    subst h2
    have hr' := (perm_isort leRec (normalizeAll sources)).mem_iff.mp hr
    have hk := List.all_eq_true.mp hall r hr'
    rw [recKey] at hk
    cases hp : parseTs (pyReplaceZ r.timestamp) with
    | none => rw [hp] at hk; simp at hk
    | some d => rfl
  case isFalse => exact Option.noConfusion h

/-- Witness for C2 at a concrete load. -/
theorem C2_amended_witness : (parseTs (pyReplaceZ rc2.timestamp)).isSome = true :=
  C2_loaded_timestamps_parseable srcs2 [rc2] (by decide) rc2 (by decide)

/-- C3 counterexample: the record built from a Zulu-suffixed ts stores the
raw Z-suffixed string, not the explicit-offset form the claim requires. -/
theorem C3_counterexample :
    (normalizeEntry zEvent "f.json").map (fun r => r.timestamp) =
      some "2023-01-01T00:00:00Z"
    ∧ "2023-01-01T00:00:00Z" ≠ "2023-01-01T00:00:00+00:00" := by decide

/-- C3 as amended: the timestamp stored in a constructed record is the raw ts
string unchanged; the rewrite of Z to +00:00 is applied only to the transient
value that is parsed for the sort key (and year key), never to the stored
field. -/
theorem C3_stored_timestamp_is_raw_ts (e : RawEvent) (src : String)
    (r : CanonicalRecord) (h : normalizeEntry e src = some r) :
    e.ts = some r.timestamp := by
  cases ht : e.ts with
  | none => simp [normalizeEntry, ht] at h
  | some t =>
    by_cases h1 : t = ""
    · simp [normalizeEntry, ht, h1] at h
    · by_cases h2 : (pyTruthyInt e.ms_played && pyGtInt e.ms_played 3600000) = true
      · simp [normalizeEntry, ht, h1, h2] at h
      · simp only [normalizeEntry, ht] at h
        rw [if_neg h1, if_neg h2] at h
        injection h with h3
        subst h3
        rfl

/-- Witness for C3 at a concrete event. -/
theorem C3_amended_witness : zEvent.ts = some rc3.timestamp :=
  C3_stored_timestamp_is_raw_ts zEvent "f.json" rc3 (by decide)

/-- C4: a successful load yields the records sorted ascending by parsed
timestamp (adjacent keys are non-decreasing) and the sort is stable: for
every key value, the records carrying it appear in the same order as in the
normalizer's discovery-order output. -/
theorem C4_sorted_and_stable (sources : List (String × List RawEvent))
    (l : List CanonicalRecord) (h : loadRecords sources = some l) :
    List.Chain' (fun a b => keyD a ≤ keyD b) l
    ∧ ∀ k : Int, l.filter (fun r => decide (keyD r = k)) =
        (normalizeAll sources).filter (fun r => decide (keyD r = k)) := by
  rw [loadRecords, sortRecords] at h
  split at h
  case isTrue hall =>
    injection h with h2
    subst h2
    have htot : ∀ a b, leRec a b = true ∨ leRec b a = true := by
      intro a b
      rcases le_total (keyD a) (keyD b) with hle | hle
      · exact Or.inl (by simpa [leRec] using hle)
      · exact Or.inr (by simpa [leRec] using hle)
    have htrans : ∀ a b c, leRec a b = true → leRec b c = true → leRec a c = true := by
      intro a b c hab hbc
      simp only [leRec, decide_eq_true_eq] at hab hbc ⊢
      exact le_trans hab hbc
    constructor
    · have hp := pairwise_isort leRec htot htrans (normalizeAll sources)
      exact List.Pairwise.chain'
        (hp.imp (fun hxy => by simpa [leRec] using hxy))
    · intro k
      apply filter_isort
      intro a b hpa hle
      simp only [decide_eq_true_eq] at hpa
      simp only [leRec, decide_eq_false_iff_not] at hle
      simp only [decide_eq_false_iff_not]
      omega
  case isFalse => exact Option.noConfusion h

/-- Witness for C4 at a concrete two-source load with a timestamp tie. -/
theorem C4_witness :
    List.Chain' (fun a b => keyD a ≤ keyD b) l4
    ∧ l4.filter (fun r => decide (keyD r = keyD rc4a)) =
        (normalizeAll srcs4).filter (fun r => decide (keyD r = keyD rc4a)) :=
  ⟨(C4_sorted_and_stable srcs4 l4 (by decide)).1,
   (C4_sorted_and_stable srcs4 l4 (by decide)).2 (keyD rc4a)⟩

/-! ### Lemmas about the name matchers -/

theorem mem_suffixes (s t : List Char) : t ∈ suffixes s ↔ t <:+ s := by
  induction s with
  | nil => simp [suffixes]
  | cons c s ih =>
    rw [List.suffix_cons_iff]
    simp only [suffixes, List.mem_cons, ih]

theorem startsWithL_iff (p s : List Char) : startsWithL p s = true ↔ p <+: s := by
  induction p generalizing s with
  | nil => simp [startsWithL]
  | cons a p ih =>
    cases s with
    | nil => simp [startsWithL]
    | cons b s =>
      simp [startsWithL, ih, List.cons_prefix_cons]

theorem containsSub_iff (p s : List Char) : containsSub p s = true ↔ p <:+: s := by
  simp only [containsSub, List.any_eq_true]
  constructor
  · rintro ⟨t, ht, hp⟩
    exact List.infix_iff_prefix_suffix.mpr
      ⟨t, (startsWithL_iff p t).mp hp, (mem_suffixes s t).mp ht⟩
  · intro h
    obtain ⟨t, h1, h2⟩ := List.infix_iff_prefix_suffix.mp h
    exact ⟨t, (mem_suffixes s t).mpr h2, (startsWithL_iff p t).mpr h1⟩

theorem endsWithL_iff (q s : List Char) : endsWithL q s = true ↔ q <:+ s := by
  simp only [endsWithL, List.any_eq_true, decide_eq_true_eq]
  constructor
  · rintro ⟨t, ht, rfl⟩
    exact (mem_suffixes s t).mp ht
  · intro h
    exact ⟨q, (mem_suffixes s q).mpr h, rfl⟩

theorem gmatch_star_unfold (p s : List Char) :
    gmatch ('*' :: p) s = (suffixes s).any (fun t => gmatch p t) := rfl

theorem gmatch_cons_nil (c : Char) (p : List Char) (hc : c ≠ '*') :
    gmatch (c :: p) [] = false := by
  simp [gmatch, hc]

theorem gmatch_cons_cons (c : Char) (p : List Char) (d : Char) (s : List Char)
    (hc : c ≠ '*') :
    gmatch (c :: p) (d :: s) = (decide (c = d) && gmatch p s) := by
  simp [gmatch, hc]

theorem gmatch_lit (q : List Char) (hq : '*' ∉ q) (s : List Char) :
    gmatch q s = true ↔ s = q := by
  induction q generalizing s with
  | nil => cases s <;> simp [gmatch]
  | cons c q ih =>
    have hc : c ≠ '*' := by
      intro h
      exact hq (by rw [h]; exact List.mem_cons_self _ _)
    have hq' : '*' ∉ q := fun h => hq (List.mem_cons_of_mem c h)
    cases s with
    | nil =>
      rw [gmatch_cons_nil c q hc]
      simp
    | cons d s =>
      rw [gmatch_cons_cons c q d s hc, Bool.and_eq_true, decide_eq_true_eq, ih hq']
      constructor
      · rintro ⟨rfl, rfl⟩
        rfl
      · intro h
        injection h with h1 h2
        exact ⟨h1.symm, h2⟩

theorem gmatch_star (q : List Char) (hq : '*' ∉ q) (s : List Char) :
    gmatch ('*' :: q) s = true ↔ q <:+ s := by
  rw [gmatch_star_unfold, List.any_eq_true]
  constructor
  · rintro ⟨t, ht, hm⟩
    rw [gmatch_lit q hq t] at hm
    subst hm
    exact (mem_suffixes s t).mp ht
  · intro h
    exact ⟨q, (mem_suffixes s q).mpr h, (gmatch_lit q hq q).mpr rfl⟩

theorem gmatch_lit_append (p : List Char) (hp : '*' ∉ p) (rest s : List Char) :
    gmatch (p ++ rest) s = true ↔ ∃ s', s = p ++ s' ∧ gmatch rest s' = true := by
  induction p generalizing s with
  | nil => simp
  | cons c p ih =>
    have hc : c ≠ '*' := by
      intro h
      exact hp (by rw [h]; exact List.mem_cons_self _ _)
    have hp' : '*' ∉ p := fun h => hp (List.mem_cons_of_mem c h)
    cases s with
    | nil =>
      rw [List.cons_append, gmatch_cons_nil c (p ++ rest) hc]
      simp
    | cons d s =>
      rw [List.cons_append, gmatch_cons_cons c (p ++ rest) d s hc, Bool.and_eq_true,
        decide_eq_true_eq, ih hp']
      constructor
      · rintro ⟨rfl, s', rfl, hm⟩
        exact ⟨s', rfl, hm⟩
      · rintro ⟨s', heq, hm⟩
        rw [List.cons_append] at heq
        injection heq with h1 h2
        exact ⟨h1.symm, s', h2, hm⟩

theorem globMatch_iff (n : String) :
    globMatch n = true ↔
      ("Streaming_History_Audio_".data <+: n.data ∧ ".json".data <:+ n.data
        ∧ 29 ≤ n.data.length) := by
  have hpat : "Streaming_History_Audio_*.json".data =
      "Streaming_History_Audio_".data ++ ('*' :: ".json".data) := by decide
  rw [globMatch, hpat, gmatch_lit_append _ (by decide) _ _]
  constructor
  · rintro ⟨s', heq, hsuf⟩
    rw [gmatch_star _ (by decide)] at hsuf
    refine ⟨⟨s', heq.symm⟩, ?_, ?_⟩
    · rw [heq]
      exact hsuf.trans (List.suffix_append _ _)
    · have h5 : ".json".data.length ≤ s'.length := hsuf.length_le
      have h24 : "Streaming_History_Audio_".data.length = 24 := by decide
      have h5' : ".json".data.length = 5 := by decide
      have hlen : n.data.length =
          "Streaming_History_Audio_".data.length + s'.length := by
        rw [heq, List.length_append]
      omega
  · rintro ⟨⟨u, hu⟩, hsuf, hlen⟩
    refine ⟨u, hu.symm, ?_⟩
    rw [gmatch_star _ (by decide)]
    obtain ⟨v, hv⟩ := hsuf
    have hvpre : v <+: n.data := ⟨".json".data, hv⟩
    have hmpre : "Streaming_History_Audio_".data <+: n.data := ⟨u, hu⟩
    have hlenv : "Streaming_History_Audio_".data.length ≤ v.length := by
      have h1 : v.length + ".json".data.length = n.data.length := by
        rw [← hv, List.length_append]
      have h24 : "Streaming_History_Audio_".data.length = 24 := by decide
      have h5 : ".json".data.length = 5 := by decide
      omega
    obtain ⟨w, hw⟩ := List.prefix_of_prefix_length_le hmpre hvpre hlenv
    refine ⟨w, ?_⟩
    have hchain : "Streaming_History_Audio_".data ++ u =
        "Streaming_History_Audio_".data ++ (w ++ ".json".data) := by
      rw [hu, ← List.append_assoc, hw, hv]
    exact (List.append_cancel_left hchain).symm

/-- C5 counterexample: a name that contains the marker and ends with .json
but does not start with the marker is selected by the zip loader and not by
the folder loader's glob, refuting the single contains-based selection rule
claimed for both. -/
theorem C5_counterexample :
    zipMatch "My_Streaming_History_Audio_1.json" = true
    ∧ globMatch "My_Streaming_History_Audio_1.json" = false := by decide

/-- C5 as amended: the zip loader selects a name exactly when it contains the
marker Streaming_History_Audio_ and ends with .json, while the folder loader
selects a name exactly when it matches the glob, that is when it starts with
the marker and ends with .json (with length at least 29, the two parts not
overlapping); containing-but-not-starting names are ignored there. -/
theorem C5_selection_rules (n : String) :
    (zipMatch n = true ↔
      ("Streaming_History_Audio_".data <:+: n.data ∧ ".json".data <:+ n.data))
    ∧ (globMatch n = true ↔
      ("Streaming_History_Audio_".data <+: n.data ∧ ".json".data <:+ n.data
        ∧ 29 ≤ n.data.length)) := by
  constructor
  · rw [zipMatch, Bool.and_eq_true, containsSub_iff, endsWithL_iff]
  · exact globMatch_iff n

/-! ### Lemmas for the top-N rankings -/

theorem nlargestQ_pos {κ : Type} (l : List (κ × ℚ))
    (h : 10 ≤ l.countP (fun p => decide (0 < p.2))) :
    ∀ p ∈ nlargestQ l, 0 < p.2 := by
  have htot : ∀ a b : κ × ℚ,
      (decide (b.2 ≤ a.2) : Bool) = true ∨ (decide (a.2 ≤ b.2) : Bool) = true := by
    intro a b
    rcases le_total b.2 a.2 with hle | hle
    · exact Or.inl (by simpa using hle)
    · exact Or.inr (by simpa using hle)
  have htrans : ∀ a b c : κ × ℚ, (decide (b.2 ≤ a.2) : Bool) = true →
      (decide (c.2 ≤ b.2) : Bool) = true → (decide (c.2 ≤ a.2) : Bool) = true := by
    intro a b c hab hbc
    simp only [decide_eq_true_eq] at hab hbc ⊢
    exact le_trans hbc hab
  have hp := pairwise_isort (fun x y => decide (y.2 ≤ x.2)) htot htrans l
  have hp' : (isort (fun x y => decide (y.2 ≤ x.2)) l).Pairwise
      (fun x y => (fun p : κ × ℚ => p.2) y ≤ (fun p : κ × ℚ => p.2) x) :=
    hp.imp (fun hxy => by simpa using hxy)
  have hc : 10 ≤ (isort (fun x y => decide (y.2 ≤ x.2)) l).countP
      (fun p => decide (0 < p.2)) := by
    rw [(perm_isort _ l).countP_eq]
    exact h
  exact pos_of_take_countP (fun p : κ × ℚ => p.2) _ 10 hp' hc

/-- C6 counterexample: ten artist groups, nine with zero summed hours and one
with positive hours; the top-10 artist ranking returns a zero-hour group even
though a non-zero-hour group exists and N equals the group count. -/
theorem C6_counterexample :
    ("a", (0 : ℚ)) ∈ top_artists dfz
    ∧ (groupbySum leStr (fun r => r.artist) hoursOf dfz).length = 10
    ∧ ("j", (1 : ℚ) / 1000) ∈ groupbySum leStr (fun r => r.artist) hoursOf dfz
    ∧ ((1 : ℚ) / 1000 : ℚ) ≠ 0 := by
  have hkeys : sortedKeys leStr (List.filterMap (fun r => r.artist) dfz) =
      ["a", "b", "c", "d", "e", "f", "g", "h", "i", "j"] := by decide
  have hgroups : groupbySum leStr (fun r => r.artist) hoursOf dfz =
      [("a", 0), ("b", 0), ("c", 0), ("d", 0), ("e", 0), ("f", 0), ("g", 0),
       ("h", 0), ("i", 0), ("j", (1 : ℚ) / 1000)] := by
    simp only [groupbySum]
    rw [hkeys]
    simp [dfz, cRow, dt0, hoursOf, sumOpt, List.filter_cons]
    norm_num
  refine ⟨?_, ?_, ?_, by norm_num⟩
  · simp only [top_artists, nlargestQ]
    rw [hgroups]
    norm_num [isort, ordInsert]
  · rw [hgroups]
    rfl
  · rw [hgroups]
    simp

/-- C6 as amended: the top-artists and top-tracks rankings return at most ten
groups, and return no zero-hour group whenever at least ten groups have
positive summed hours (rather than whenever any single group has non-zero
hours and N is at most the group count, which the counterexample refutes). -/
theorem C6_topn_bounds (df : List DfRow) :
    (top_artists df).length ≤ 10
    ∧ (top_tracks df).length ≤ 10
    ∧ (10 ≤ (groupbySum leStr (fun r => r.artist) hoursOf df).countP
          (fun p => decide (0 < p.2)) →
        ∀ p ∈ top_artists df, p.2 ≠ 0)
    ∧ (10 ≤ (groupbySum leStrPair trackKey hoursOf df).countP
          (fun p => decide (0 < p.2)) →
        ∀ p ∈ top_tracks df, p.2 ≠ 0) := by
  refine ⟨?_, ?_, ?_, ?_⟩
  · exact List.length_take_le _ _
  · exact List.length_take_le _ _
  · intro h p hp
    exact (nlargestQ_pos _ h p hp).ne'
  · intro h p hp
    exact (nlargestQ_pos _ h p hp).ne'

/-- Witness for C6 on ten all-positive artist groups: the positivity guard
holds and no returned group has zero hours. -/
theorem C6_witness :
    10 ≤ (groupbySum leStr (fun r => r.artist) hoursOf dfw).countP
        (fun p => decide (0 < p.2))
    ∧ ∀ p ∈ top_artists dfw, p.2 ≠ 0 := by
  have hkeysw : sortedKeys leStr (List.filterMap (fun r => r.artist) dfw) =
      ["a", "b", "c", "d", "e", "f", "g", "h", "i", "j"] := by decide
  have hgroupsw : groupbySum leStr (fun r => r.artist) hoursOf dfw =
      [("a", (1 : ℚ) / 1000), ("b", (1 : ℚ) / 1000), ("c", (1 : ℚ) / 1000),
       ("d", (1 : ℚ) / 1000), ("e", (1 : ℚ) / 1000), ("f", (1 : ℚ) / 1000),
       ("g", (1 : ℚ) / 1000), ("h", (1 : ℚ) / 1000), ("i", (1 : ℚ) / 1000),
       ("j", (1 : ℚ) / 1000)] := by
    simp only [groupbySum]
    rw [hkeysw]
    simp [dfw, cRow, dt0, hoursOf, sumOpt, List.filter_cons]
    norm_num
  have hcount : 10 ≤ (groupbySum leStr (fun r => r.artist) hoursOf dfw).countP
      (fun p => decide (0 < p.2)) := by
    rw [hgroupsw]
    simp [List.countP_cons]
    try norm_num
  exact ⟨hcount, (C6_topn_bounds dfw).2.2.1 hcount⟩

/-! ### Lemmas about skip detection and its groupby -/

theorem isSkipB_iff (r : DfRow) :
    isSkipB r = true ↔ ∃ m, r.ms_played = some m ∧ m < 15000 := by
  cases hm : r.ms_played with
  | none => simp [isSkipB, hm]
  | some m => simp [isSkipB, hm]

theorem skRows_eq (df : List DfRow) :
    skRows df = (df.filter isSkipB).map markFun := by
  rw [skRows, markSkipped, List.filter_map]
  congr 1
  apply List.filter_congr
  intro r _
  cases h : isSkipB r <;> simp [markFun, Function.comp, h]

theorem skRows_filter_key (df : List DfRow) (k : String × String) :
    (skRows df).filter (fun r => decide (trackKey r = some k)) =
      (df.filter (fun r => decide (trackKey r = some k) && isSkipB r)).map markFun := by
  rw [skRows_eq, List.filter_map]
  have h1 : ((fun r => decide (trackKey r = some k)) ∘ markFun) =
      fun r => decide (trackKey r = some k) := rfl
  rw [h1, List.filter_filter]

theorem sumMs_map_markFun (l : List DfRow) : sumMs (l.map markFun) = sumMs l := by
  rw [sumMs, sumMs, List.map_map]
  rfl

theorem cntMs_map_markFun (l : List DfRow) : cntMs (l.map markFun) = cntMs l := by
  rw [cntMs, cntMs, List.countP_map]
  rfl

theorem skipped_tracks_mem (df : List DfRow) (e : (String × String) × Nat × ℚ)
    (he : e ∈ skipped_tracks df) :
    e.2.1 = (df.filter (fun r => decide (trackKey r = some e.1) && isSkipB r)).length
    ∧ e.2.2 = sumMs (df.filter (fun r => decide (trackKey r = some e.1) && isSkipB r))
        / ((df.filter (fun r => decide (trackKey r = some e.1) && isSkipB r)).length : ℚ) := by
  rw [skipped_tracks] at he
  obtain ⟨k, hk, rfl⟩ := List.mem_map.mp he
  have hcnt : cntMs (df.filter (fun r => decide (trackKey r = some k) && isSkipB r)) =
      (df.filter (fun r => decide (trackKey r = some k) && isSkipB r)).length := by
    rw [cntMs, List.countP_eq_length]
    intro r hr
    have hskip := (Bool.and_eq_true _ _).mp ((List.mem_filter.mp hr).2)
    obtain ⟨m, hm, -⟩ := (isSkipB_iff r).mp hskip.2
    rw [hm]
    rfl
  constructor
  · show ((skRows df).filter (fun r => decide (trackKey r = some k))).length = _
    rw [skRows_filter_key df k, List.length_map]
  · show meanMs ((skRows df).filter (fun r => decide (trackKey r = some k))) = _
    rw [meanMs, skRows_filter_key df k, sumMs_map_markFun, cntMs_map_markFun, hcnt]

/-- C7: every entry of the most-skipped ranking has a present (track, artist)
key whose skip-count is exactly the number of plays of that key with
ms_played present and under 15000 (the membership equation below), is kept
only with skip-count at least 3, reports the mean ms_played over exactly
those skipped plays, and the ranking is ordered by skip-count descending. -/
theorem C7_most_skipped (df : List DfRow) :
    (∀ e ∈ most_skipped df,
      3 ≤ e.2.1
      ∧ e.2.1 = (df.filter (fun r => decide (trackKey r = some e.1) && isSkipB r)).length
      ∧ e.2.2 = sumMs (df.filter (fun r => decide (trackKey r = some e.1) && isSkipB r))
          / ((df.filter (fun r => decide (trackKey r = some e.1) && isSkipB r)).length : ℚ))
    ∧ (∀ r : DfRow, isSkipB r = true ↔ ∃ m, r.ms_played = some m ∧ m < 15000)
    ∧ List.Chain' (fun x y => y.2.1 ≤ x.2.1) (most_skipped df) := by
  refine ⟨?_, isSkipB_iff, ?_⟩
  · intro e he
    rw [most_skipped] at he
    have he1 : e ∈ isort (fun x y => decide (y.2.1 ≤ x.2.1))
        ((skipped_tracks df).filter (fun x => decide (3 ≤ x.2.1))) :=
      (List.take_sublist _ _).subset he
    have he2 := (perm_isort _ _).mem_iff.mp he1
    have he3 := List.mem_filter.mp he2
    have h3 : 3 ≤ e.2.1 := by simpa using he3.2
    obtain ⟨hlen, hmean⟩ := skipped_tracks_mem df e he3.1
    exact ⟨h3, hlen, hmean⟩
  · have htot : ∀ a b : (String × String) × Nat × ℚ,
        (decide (b.2.1 ≤ a.2.1) : Bool) = true ∨ (decide (a.2.1 ≤ b.2.1) : Bool) = true := by
      intro a b
      rcases Nat.le_total b.2.1 a.2.1 with hle | hle
      · exact Or.inl (by simpa using hle)
      · exact Or.inr (by simpa using hle)
    have htrans : ∀ a b c : (String × String) × Nat × ℚ,
        (decide (b.2.1 ≤ a.2.1) : Bool) = true → (decide (c.2.1 ≤ b.2.1) : Bool) = true →
        (decide (c.2.1 ≤ a.2.1) : Bool) = true := by
      intro a b c hab hbc
      simp only [decide_eq_true_eq] at hab hbc ⊢
      exact le_trans hbc hab
    have hp := pairwise_isort (fun x y => decide (y.2.1 ≤ x.2.1)) htot htrans
      ((skipped_tracks df).filter (fun x => decide (3 ≤ x.2.1)))
    rw [most_skipped]
    exact (((hp.sublist (List.take_sublist _ _)).imp
      (fun hxy => by simpa using hxy))).chain'

/-- Witness for C7 on a track skipped three times at 1000 ms each. -/
theorem C7_witness :
    (3 : Nat) = (df7.filter (fun r => decide (trackKey r = some ("t", "a")) && isSkipB r)).length
    ∧ (1000 : ℚ) = sumMs (df7.filter (fun r => decide (trackKey r = some ("t", "a")) && isSkipB r))
        / ((df7.filter (fun r => decide (trackKey r = some ("t", "a")) && isSkipB r)).length : ℚ) := by
  have hkeys7 : sortedKeys leStrPair (List.filterMap trackKey (skRows df7)) =
      [("t", "a")] := by decide
  have hflt : (skRows df7).filter (fun r => decide (trackKey r = some ("t", "a"))) =
      [markFun (cRow "a" "t" (some 1000)), markFun (cRow "a" "t" (some 1000)),
       markFun (cRow "a" "t" (some 1000))] := by decide
  have hst : skipped_tracks df7 = [(("t", "a"), 3, (1000 : ℚ))] := by
    simp only [skipped_tracks]
    rw [hkeys7]
    simp only [List.map_cons, List.map_nil]
    rw [hflt]
    simp [meanMs, sumMs, cntMs, markFun, cRow, dt0, List.countP_cons]
    norm_num
  have hms : most_skipped df7 = [(("t", "a"), 3, (1000 : ℚ))] := by
    simp only [most_skipped]
    rw [hst]
    simp [isort, ordInsert]
  have hmem : ((("t", "a"), 3, (1000 : ℚ)) : (String × String) × Nat × ℚ) ∈
      most_skipped df7 := by
    rw [hms]
    exact List.mem_singleton.mpr rfl
  have h := (C7_most_skipped df7).1 _ hmem
  exact ⟨h.2.1, h.2.2⟩

/-- C8: for a non-empty per-track subset, forensics reports skip_count equal
to the number of plays with ms_played present and under 15000, skip_rate
equal to skip-count over total plays times 100 and hence within 0 and 100,
and a reported total-plays figure equal to the play count minus the
skip-count. -/
theorem C8_forensics (l : List DfRow) (h : l ≠ []) :
    (track_forensics l).1 = (l.filter isSkipB).length
    ∧ (∀ r : DfRow, isSkipB r = true ↔ ∃ m, r.ms_played = some m ∧ m < 15000)
    ∧ (track_forensics l).2.1 = (((l.filter isSkipB).length : ℚ) / (l.length : ℚ)) * 100
    ∧ 0 ≤ (track_forensics l).2.1
    ∧ (track_forensics l).2.1 ≤ 100
    ∧ (track_forensics l).2.2 = l.length - (l.filter isSkipB).length := by
  have hlen : 0 < l.length := List.length_pos.mpr h
  have hposQ : (0 : ℚ) < (l.length : ℚ) := by exact_mod_cast hlen
  have hsc : (track_forensics l).1 = (l.filter isSkipB).length := by
    show l.countP isSkipB = _
    exact List.countP_eq_length_filter _ _
  have hrate : (track_forensics l).2.1 =
      (((l.filter isSkipB).length : ℚ) / (l.length : ℚ)) * 100 := by
    show (if 0 < l.length then ((l.countP isSkipB : ℚ) / (l.length : ℚ)) * 100 else 0) = _
    rw [if_pos hlen, List.countP_eq_length_filter]
  have hle : ((l.filter isSkipB).length : ℚ) ≤ (l.length : ℚ) := by
    have := List.length_filter_le isSkipB l
    exact_mod_cast this
  refine ⟨hsc, isSkipB_iff, hrate, ?_, ?_, ?_⟩
  · rw [hrate]
    positivity
  · rw [hrate]
    have hdiv : ((l.filter isSkipB).length : ℚ) / (l.length : ℚ) ≤ 1 :=
      (div_le_one hposQ).mpr hle
    linarith
  · show l.length - l.countP isSkipB = _
    rw [List.countP_eq_length_filter]

/-- Witness for C8 on the claim's scenario: four plays, three under fifteen
seconds, reported as skip_count 3, skip_rate 75 and total plays 1. -/
theorem C8_witness :
    track_forensics l48 = (3, (75 : ℚ), 1)
    ∧ 0 ≤ (track_forensics l48).2.1 ∧ (track_forensics l48).2.1 ≤ 100 := by
  have hb := C8_forensics l48 (by decide)
  refine ⟨?_, hb.2.2.2.1, hb.2.2.2.2.1⟩
  have h1 : (track_forensics l48).1 = 3 := by decide
  have h3 : (track_forensics l48).2.2 = 1 := by decide
  have h2 : (track_forensics l48).2.1 = 75 := by
    rw [hb.2.2.1]
    have hf : (l48.filter isSkipB).length = 3 := by decide
    have hl : l48.length = 4 := by decide
    rw [hf, hl]
    norm_num
  rw [show track_forensics l48 =
    ((track_forensics l48).1, (track_forensics l48).2.1, (track_forensics l48).2.2) from rfl,
    h1, h2, h3]

/-- C9 counterexample: computing metrics over a one-row record set changes
the record set — the is_skipped column is materialized on it in place — so
aggregation is not a pure function of the subset. -/
theorem C9_counterexample : (calculate_metrics [r9]).1 ≠ [r9] := by decide

/-- C9 as amended: the aggregation does not add, remove or reorder records
and leaves every data field of every record unchanged, but it is not free of
effects on the record set: calculate_metrics writes the is_skipped column
(the under-15000 predicate) onto the shared records; show_dashboard writes
likely_skipped the same way at line 256. -/
theorem C9_frame (df : List DfRow) :
    ((calculate_metrics df).1).length = df.length
    ∧ ((calculate_metrics df).1).map (fun r => r.ts) = df.map (fun r => r.ts)
    ∧ ((calculate_metrics df).1).map (fun r => r.platform) = df.map (fun r => r.platform)
    ∧ ((calculate_metrics df).1).map (fun r => r.ms_played) = df.map (fun r => r.ms_played)
    ∧ ((calculate_metrics df).1).map (fun r => r.track_name) = df.map (fun r => r.track_name)
    ∧ ((calculate_metrics df).1).map (fun r => r.artist) = df.map (fun r => r.artist)
    ∧ ((calculate_metrics df).1).map (fun r => r.album) = df.map (fun r => r.album)
    ∧ ((calculate_metrics df).1).map (fun r => r.spotify_uri) = df.map (fun r => r.spotify_uri)
    ∧ ((calculate_metrics df).1).map (fun r => r.skipped) = df.map (fun r => r.skipped)
    ∧ ((calculate_metrics df).1).map (fun r => r.shuffle) = df.map (fun r => r.shuffle)
    ∧ ((calculate_metrics df).1).map (fun r => r.offline) = df.map (fun r => r.offline)
    ∧ ((calculate_metrics df).1).map (fun r => r.incognito_mode) =
        df.map (fun r => r.incognito_mode)
    ∧ ((calculate_metrics df).1).map (fun r => r.source_file) = df.map (fun r => r.source_file)
    ∧ ((calculate_metrics df).1).map (fun r => r.likely_skipped) =
        df.map (fun r => r.likely_skipped)
    ∧ ((calculate_metrics df).1).map (fun r => r.is_skipped) =
        df.map (fun r => some (isSkipB r)) := by
  refine ⟨?_, ?_, ?_, ?_, ?_, ?_, ?_, ?_, ?_, ?_, ?_, ?_, ?_, ?_, ?_⟩ <;>
    simp [calculate_metrics, markSkipped, markFun, List.map_map, Function.comp]

/-- C10: on the empty record subset every aggregation of calculate_metrics
returns a zero or empty result and nothing fails: zero totals and counts,
empty top-artists, top-tracks, monthly-trend and most-skipped rankings, and
the record set is left empty. -/
theorem C10_empty_metrics :
    calculate_metrics [] =
      ([], { total_hours := 0
             total_tracks := 0
             unique_artists := 0
             unique_tracks := 0
             top_artists := []
             top_tracks := []
             monthly_listening := []
             most_skipped := [] }) := rfl
